import Mathlib

/-!
Verification of the Noosphere C API contract (subconsciousnetwork/noosphere).

The repository's source under scrutiny is the C example client
(`src/c/example/main.c`), which exercises a foreign-function interface
(`noosphere.h`) to a sphere-management engine.  The engine itself is not part
of the provided sources, so the data model and the operations below are
modelled from the specification's reconstruction of the engine's minimal
storage contract; each such definition is marked `Modelled from the spec:`.
The helper `str_from_buffer` is translated directly from the C source.

Bytes are modelled as natural numbers below 256 where relevant; machine
pointers are not modelled (allocation success is an explicit parameter).
-/

namespace Noosphere

/-- Modelled from the spec: the closed error-code enumeration of §7
(`NotFound`, `AlreadyExists`, `StorageError`, `Other`); the engine that
defines `ns_error_code_get`'s codes is not in the provided sources. -/
inductive ErrorCode where
  | notFound
  | alreadyExists
  | storageError
  | other
  deriving DecidableEq, Repr

/-- Modelled from the spec: an error is a (code, human-readable message)
pair (§3 "Error"); the engine type behind `ns_error_t` is not in the
provided sources. -/
structure NsError where
  code : ErrorCode
  message : String
  deriving DecidableEq, Repr

/-- Modelled from the spec: a content entry ("file") is a byte payload
together with an ordered list of header key→value pairs, a key possibly
occurring several times (§3 "Content Entry"); the engine type behind
`ns_sphere_file_t` is not in the provided sources. -/
structure SphereFile where
  contents : List Nat
  headers : List (String × String)
  deriving DecidableEq, Repr

/-- Modelled from the spec: a sphere is a versioned container with an
immutable identity, a committed view, a pending working set, and a
hash-linked chain of prior versions (§3 "Sphere", §4.2); the engine type
behind `ns_sphere_t` is not in the provided sources. -/
structure Sphere where
  identity : String
  committed : List (String × SphereFile)
  pending : List (String × SphereFile)
  versions : List (List (String × SphereFile))
  deriving DecidableEq, Repr

/-- Modelled from the spec: the receipt of sphere creation carries the new
sphere's identity and its recovery mnemonic (§3 "Sphere Receipt"); the
engine type behind `ns_sphere_receipt_t` is not in the provided sources. -/
structure SphereReceipt where
  identity : String
  mnemonic : String
  deriving DecidableEq, Repr

/-- Modelled from the spec: the Noosphere context owns the two storage
roots, the key namespace and the sphere store (§4.4); the engine type
behind `ns_noosphere_t` is not in the provided sources. -/
structure NsNoosphere where
  globalPath : String
  ephemeralPath : String
  keys : List String
  spheres : List Sphere
  counter : Nat
  deriving DecidableEq, Repr

/-- Modelled from the spec: `initialize(globalStoragePath,
ephemeralStoragePath)` establishes the two storage roots with an empty key
namespace and sphere store (§4.4); the engine behind `ns_initialize` is not
in the provided sources. -/
def ns_initialize (globalPath ephemeralPath : String) : NsNoosphere :=
  { globalPath := globalPath
    ephemeralPath := ephemeralPath
    keys := []
    spheres := []
    counter := 0 }

/-- Modelled from the spec: `createKey(name)` generates a key pair under
`name`, failing with `AlreadyExists` if the name is taken (§4.1); the
engine behind `ns_key_create` is not in the provided sources. -/
def ns_key_create (ctx : NsNoosphere) (name : String) :
    Except NsError NsNoosphere :=
  if name ∈ ctx.keys then
    .error ⟨.alreadyExists, "key name already exists: " ++ name⟩
  else
    .ok { ctx with keys := name :: ctx.keys }

/-- Modelled from the spec: sphere identities are derived from a freshly
generated sphere-owning key (§4.2); the derivation itself is not in the
provided sources, so the fresh key is modelled by the context's counter. -/
def deriveIdentity (n : Nat) : String :=
  "did:key:z" ++ toString n

/-- Modelled from the spec: the recovery mnemonic encodes the fresh sphere
key's private material (§3 "Mnemonic"); the encoding is not in the provided
sources, so it is modelled from the same counter with a distinct shape. -/
def deriveMnemonic (n : Nat) : String :=
  "mnemonic words " ++ toString n

/-- Modelled from the spec: `createSphere(ownerKeyName)` generates a fresh
sphere key, derives its identity, registers empty sphere storage, and
returns identity and mnemonic; fails with `KeyNotFound` if the owner key
does not exist (§4.2); the engine behind `ns_sphere_create` is not in the
provided sources. -/
def ns_sphere_create (ctx : NsNoosphere) (ownerKeyName : String) :
    Except NsError (SphereReceipt × NsNoosphere) :=
  if ownerKeyName ∈ ctx.keys then
    let identity := deriveIdentity ctx.counter
    let mnemonic := deriveMnemonic ctx.counter
    .ok (⟨identity, mnemonic⟩,
      { ctx with
          spheres := ⟨identity, [], [], []⟩ :: ctx.spheres
          counter := ctx.counter + 1 })
  else
    .error ⟨.notFound, "key not found: " ++ ownerKeyName⟩

/-- Modelled from the spec: `openSphere(identity)` resolves the identity
against the store and returns a live handle at the latest version, failing
(surfaced generically as the `Other` kind) when the identity is unknown,
without side effects on the store (§4.2, §3 "Sphere"); the engine behind
`ns_sphere_open` is not in the provided sources.  The returned context is
the store after the call. -/
def ns_sphere_open (ctx : NsNoosphere) (identity : String) :
    Except NsError Sphere × NsNoosphere :=
  match ctx.spheres.find? (fun s => s.identity == identity) with
  | some s => (.ok s, ctx)
  | none =>
      (.error ⟨.other, "sphere identity does not resolve: " ++ identity⟩,
        ctx)

/-- Modelled from the spec: `write(handle, slug, contentType, bytes)`
stages a content entry in the pending working set with header
`Content-Type: contentType`, overwriting any prior pending entry with the
same slug (§4.3); the engine behind `ns_sphere_content_write` is not in
the provided sources. -/
def ns_sphere_content_write (sphere : Sphere) (slug contentType : String)
    (data : List Nat) : Sphere :=
  { sphere with
      pending :=
        (slug, ⟨data, [("Content-Type", contentType)]⟩) ::
          sphere.pending.filter (fun e => e.1 ≠ slug) }

/-- Modelled from the spec: `saveSphere(handle)` commits all pending
mutations as a new immutable version, all-or-nothing, and is a
deterministic no-op when there are no pending mutations (§4.2, §7); the
engine behind `ns_sphere_save` is not in the provided sources. -/
def ns_sphere_save (sphere : Sphere) : Sphere :=
  if sphere.pending = [] then sphere
  else
    { sphere with
        committed :=
          sphere.pending ++
            sphere.committed.filter
              (fun e => sphere.pending.all (fun p => p.1 ≠ e.1))
        pending := []
        versions := sphere.committed :: sphere.versions }

/-- Modelled from the spec: read paths are tolerant of a leading separator;
the leading slash is a read-path convention, not part of the stored slug
(§3 "Content Entry", §4.3); the engine's path resolution is not in the
provided sources. -/
def normalizePath (path : String) : String :=
  match path.data with
  | '/' :: rest => String.mk rest
  | _ => path

/-- Modelled from the spec: the sphere's current committed+pending view,
pending entries shadowing committed ones (§4.3 `read`); the engine's view
construction is not in the provided sources. -/
def sphereView (sphere : Sphere) : List (String × SphereFile) :=
  sphere.pending ++ sphere.committed

/-- Modelled from the spec: `read(handle, path)` resolves the normalized
path against the committed+pending view and returns the file, failing with
`NotFound` if no entry matches (§4.3); the engine behind
`ns_sphere_content_read` is not in the provided sources. -/
def ns_sphere_content_read (sphere : Sphere) (path : String) :
    Except NsError SphereFile :=
  match (sphereView sphere).find? (fun e => e.1 == normalizePath path) with
  | some e => .ok e.2
  | none => .error ⟨.notFound, "content not found at path: " ++ path⟩

/-- Modelled from the spec: the non-blocking read variant's completion may
be deferred pending I/O or network resolution (§5); the deferral is
modelled by a fuel parameter, `none` meaning "not yet complete".  The
engine's asynchronous path is not in the provided sources. -/
def ns_sphere_content_read_async (sphere : Sphere) (path : String)
    (fuel : Nat) : Option (Except NsError SphereFile) :=
  match fuel with
  | 0 => none
  | _ + 1 => some (ns_sphere_content_read sphere path)

/-- Modelled from the spec: the blocking read variant synchronously waits
for the same result as the non-blocking one (§4.3, §5); the engine behind
`ns_sphere_content_read_blocking` is not in the provided sources. -/
def ns_sphere_content_read_blocking (sphere : Sphere) (path : String) :
    Except NsError SphereFile :=
  ns_sphere_content_read sphere path

/-- Modelled from the spec: `readHeaderValues(file, headerName)` returns
all values associated with the header name (§4.3); the engine behind
`ns_sphere_file_header_values_read` is not in the provided sources. -/
def ns_sphere_file_header_values_read :
    List (String × String) → String → List String
  | [], _ => []
  | (k, v) :: rest, name =>
      if k == name then v :: ns_sphere_file_header_values_read rest name
      else ns_sphere_file_header_values_read rest name

/-- Modelled from the spec: `readContents(file)` returns the exact byte
payload as written, with no transformation (§4.3); the engine behind
`ns_sphere_file_contents_read` is not in the provided sources. -/
def ns_sphere_file_contents_read (file : SphereFile) : List Nat :=
  file.contents

/-- Modelled from the spec: the non-blocking contents read, deferral
modelled by fuel as for `ns_sphere_content_read_async`; the engine's
asynchronous path is not in the provided sources. -/
def ns_sphere_file_contents_read_async (file : SphereFile) (fuel : Nat) :
    Option (List Nat) :=
  match fuel with
  | 0 => none
  | _ + 1 => some (ns_sphere_file_contents_read file)

/-- Modelled from the spec: the blocking contents read mirrors the
non-blocking one (§4.3); the engine behind
`ns_sphere_file_contents_read_blocking` is not in the provided sources. -/
def ns_sphere_file_contents_read_blocking (file : SphereFile) : List Nat :=
  ns_sphere_file_contents_read file

/-- Modelled from the spec: the fallible C entry point behind
`ns_sphere_content_write` (it takes an error out-parameter); staging never
fails in the reconstructed core, so it always succeeds.  The engine is not
in the provided sources. -/
def ns_sphere_content_write_c (sphere : Sphere) (slug contentType : String)
    (data : List Nat) : Except NsError Sphere :=
  .ok (ns_sphere_content_write sphere slug contentType data)

/-- Modelled from the spec: the fallible C entry point behind
`ns_sphere_save` (it takes an error out-parameter); committing is
all-or-nothing and never fails in the reconstructed core.  The engine is
not in the provided sources. -/
def ns_sphere_save_c (sphere : Sphere) : Except NsError Sphere :=
  .ok (ns_sphere_save sphere)

/-- Modelled from the spec: the Context boundary normalizes every typed
outcome into the C ABI's (nullable result, nullable error) pair (§6, §7);
the marshaling glue is not in the provided sources. -/
def toCResult {α : Type} (r : Except NsError α) :
    Option α × Option NsError :=
  match r with
  | .ok a => (some a, none)
  | .error e => (none, some e)

/-- The (result, optional error) contract of §6/§7: exactly one of the two
slots is populated. -/
def resultErrorContract {α : Type} (p : Option α × Option NsError) : Prop :=
  (p.1.isSome = true ∧ p.2 = none) ∨ (p.1 = none ∧ p.2.isSome = true)

/-! ### The C example client's helper, translated from the source -/

/-- C `strncpy(dest, src, n)` semantics restricted to the copied region:
copies at most `n` bytes from `src`; once a NUL byte is met, the remainder
of the region is filled with NUL bytes (`src/c/example/main.c` line 16). -/
def strncpyRegion : List Nat → Nat → List Nat
  | _, 0 => []
  | [], n + 1 => List.replicate (n + 1) 0
  | b :: rest, n + 1 =>
      if b = 0 then List.replicate (n + 1) 0
      else b :: strncpyRegion rest n

/-- `str_from_buffer` from `src/c/example/main.c` lines 13–20: allocates
`len + 1` bytes (success modelled by `allocOk`), `strncpy`s the buffer's
`len` bytes and writes a terminating NUL at index `len`; returns NULL
(`none`) exactly when allocation fails. -/
def str_from_buffer (buffer : List Nat) (allocOk : Bool) :
    Option (List Nat) :=
  if allocOk then
    some (strncpyRegion buffer buffer.length ++ [0])
  else
    none

/-! ### Helper lemmas -/

/-- Prepending the separator to a string prepends `'/'` to its data. -/
theorem data_slash_append (s : String) : ("/" ++ s).data = '/' :: s.data := by
  cases s with
  | mk d => rfl

/-- Normalizing a path formed by prepending the separator recovers the
slug. -/
theorem normalizePath_slash_append (s : String) :
    normalizePath ("/" ++ s) = s := by
  unfold normalizePath
  rw [data_slash_append]
  cases s with
  | mk d => rfl

/-- A path that does not begin with the separator normalizes to itself. -/
theorem normalizePath_no_slash (s : String) (h : s.data.head? ≠ some '/') :
    normalizePath s = s := by
  unfold normalizePath
  split
  · next heq =>
    exact absurd (by rw [heq]; rfl) h
  · rfl

/-- The boundary normalization always yields exactly one populated slot. -/
theorem toCResult_contract {α : Type} (r : Except NsError α) :
    resultErrorContract (toCResult r) := by
  cases r with
  | ok a => exact Or.inl ⟨rfl, rfl⟩
  | error e => exact Or.inr ⟨rfl, rfl⟩

/-- Header-value lookup is the in-order sublist of values whose key
matches. -/
theorem header_values_eq_filter_map (headers : List (String × String))
    (name : String) :
    ns_sphere_file_header_values_read headers name =
      (headers.filter (fun p => p.1 == name)).map Prod.snd := by
  induction headers with
  | nil => rfl
  | cons p rest ih =>
    cases p with
    | mk k v =>
      by_cases hk : k == name
      · simp [ns_sphere_file_header_values_read, hk, List.filter_cons, ih]
      · simp only [Bool.not_eq_true] at hk
        simp [ns_sphere_file_header_values_read, hk, List.filter_cons, ih]

/-- Entries surviving a filter excluding a slug never match that slug. -/
theorem filter_ne_then_eq (l : List (String × SphereFile)) (s : String) :
    (l.filter (fun e => e.1 ≠ s)).filter (fun e => e.1 == s) = [] := by
  rw [List.filter_eq_nil_iff]
  intro e he
  have hne := List.of_mem_filter he
  simp only [decide_eq_true_eq] at hne
  simp [hne]

/-- If no NUL byte occurs in the buffer, `strncpy` over the buffer's full
length copies it verbatim. -/
theorem strncpyRegion_eq_self :
    ∀ buf : List Nat, 0 ∉ buf → strncpyRegion buf buf.length = buf := by
  intro buf
  induction buf with
  | nil => intro _; rfl
  | cons b rest ih =>
    intro h
    simp only [List.mem_cons, not_or] at h
    simp only [List.length_cons, strncpyRegion, if_neg (Ne.symm h.1)]
    rw [ih h.2]

/-! ### The claims -/

/-- C1: writing content `data` with header `Content-Type: contentType`
under slug `slug` and then saving makes reading path `"/" ++ slug` yield a
file whose `Content-Type` header lookup is exactly `[contentType]` and
whose contents read returns `data` byte-for-byte. -/
theorem c1_roundtrip (sphere : Sphere) (slug contentType : String)
    (data : List Nat) :
    ∃ file : SphereFile,
      ns_sphere_content_read_blocking
          (ns_sphere_save
            (ns_sphere_content_write sphere slug contentType data))
          ("/" ++ slug) = .ok file ∧
      ns_sphere_file_header_values_read file.headers "Content-Type" =
        [contentType] ∧
      ns_sphere_file_contents_read_blocking file = data := by
  refine ⟨⟨data, [("Content-Type", contentType)]⟩, ?_, ?_, rfl⟩
  · have hfind :
        (sphereView
            (ns_sphere_save
              (ns_sphere_content_write sphere slug contentType data))).find?
            (fun e => e.1 == slug) =
          some (slug, ⟨data, [("Content-Type", contentType)]⟩) := by
      simp [sphereView, ns_sphere_save, ns_sphere_content_write]
    unfold ns_sphere_content_read_blocking ns_sphere_content_read
    rw [normalizePath_slash_append, hfind]
  · simp [ns_sphere_file_header_values_read]

/-- C2: every fallible operation of the API (key creation, sphere
creation, sphere open, content write, save, read), on every input,
normalizes at the C boundary to a pair with exactly one populated slot:
either a usable result and no error, or a null result and a non-null
error. -/
theorem c2_result_error_contract :
    (∀ ctx name, resultErrorContract (toCResult (ns_key_create ctx name))) ∧
    (∀ ctx name,
      resultErrorContract (toCResult (ns_sphere_create ctx name))) ∧
    (∀ ctx identity,
      resultErrorContract (toCResult (ns_sphere_open ctx identity).1)) ∧
    (∀ sphere slug contentType data,
      resultErrorContract
        (toCResult
          (ns_sphere_content_write_c sphere slug contentType data))) ∧
    (∀ sphere, resultErrorContract (toCResult (ns_sphere_save_c sphere))) ∧
    (∀ sphere path,
      resultErrorContract (toCResult (ns_sphere_content_read sphere path))) :=
  ⟨fun _ _ => toCResult_contract _, fun _ _ => toCResult_contract _,
    fun _ _ => toCResult_contract _, fun _ _ _ _ => toCResult_contract _,
    fun _ => toCResult_contract _, fun _ _ => toCResult_contract _⟩

/-- C3: opening an identity that resolves to no existing sphere returns a
null handle together with a non-null error of the generic `Other` kind
whose message is non-empty, and leaves the store unchanged. -/
theorem c3_open_unknown (ctx : NsNoosphere) (identity : String)
    (h : ∀ s ∈ ctx.spheres, s.identity ≠ identity) :
    ∃ err : NsError,
      (ns_sphere_open ctx identity).1 = .error err ∧
      err.code = .other ∧ err.message ≠ "" ∧
      (ns_sphere_open ctx identity).2 = ctx := by
  have hfind : ctx.spheres.find? (fun s => s.identity == identity) = none := by
    rw [List.find?_eq_none]
    intro s hs
    simpa using h s hs
  refine ⟨⟨.other, "sphere identity does not resolve: " ++ identity⟩,
    ?_, rfl, ?_, ?_⟩
  · simp [ns_sphere_open, hfind]
  · intro hmsg
    cases identity with
    | mk d =>
      have hd :
          ("sphere identity does not resolve: ").data ++ d =
            ([] : List Char) :=
        congrArg String.data hmsg
      have h2 := List.append_eq_nil.mp hd
      exact absurd h2.1 (by decide)
  · simp [ns_sphere_open, hfind]

/-- Witness for C3: the fresh store resolves no sphere, so opening
"doesnotexist" fails as claimed. -/
theorem c3_witness :
    (∀ s ∈ ( ns_initialize "/tmp/foo" "/tmp/bar").spheres,
        s.identity ≠ "doesnotexist") ∧
      ∃ err : NsError,
        (ns_sphere_open ( ns_initialize "/tmp/foo" "/tmp/bar")
              "doesnotexist").1 = .error err ∧
        err.code = .other ∧ err.message ≠ "" ∧
        (ns_sphere_open ( ns_initialize "/tmp/foo" "/tmp/bar")
            "doesnotexist").2 = ns_initialize "/tmp/foo" "/tmp/bar" :=
  ⟨by simp [ ns_initialize],
    c3_open_unknown _ _ (by simp [ ns_initialize])⟩

/-- C4: for a slug (which by the data model does not begin with the read
separator) having a committed or pending entry, reading via path
`"/" ++ slug` and via path `slug` resolve to the same entry. -/
theorem c4_leading_slash (sphere : Sphere) (slug : String)
    (h : slug.data.head? ≠ some '/')
    (hentry :
      ∃ e, (sphereView sphere).find? (fun e => e.1 == slug) = some e) :
    ns_sphere_content_read_blocking sphere ("/" ++ slug) =
      ns_sphere_content_read_blocking sphere slug := by
  obtain ⟨e, he⟩ := hentry
  unfold ns_sphere_content_read_blocking ns_sphere_content_read
  rw [normalizePath_slash_append, normalizePath_no_slash slug h, he]

/-- Witness for C4: a sphere with a committed "hello" entry reads the same
through "/hello" and "hello". -/
theorem c4_witness :
    ns_sphere_content_read_blocking
        ⟨"id", [("hello", ⟨[104], []⟩)], [], []⟩ "/hello" =
      ns_sphere_content_read_blocking
        ⟨"id", [("hello", ⟨[104], []⟩)], [], []⟩ "hello" :=
  c4_leading_slash ⟨"id", [("hello", ⟨[104], []⟩)], [], []⟩ "hello"
    (by decide) ⟨("hello", ⟨[104], []⟩), by decide⟩

/-- C5: header lookup returns all values associated with the header name
in insertion order, and returns the empty sequence exactly when the name
was never written for the file (absence is not an error). -/
theorem c5_header_values (headers : List (String × String)) (name : String) :
    ns_sphere_file_header_values_read headers name =
      (headers.filter (fun p => p.1 == name)).map Prod.snd ∧
    (ns_sphere_file_header_values_read headers name = [] ↔
      name ∉ headers.map Prod.fst) := by
  refine ⟨header_values_eq_filter_map headers name, ?_⟩
  rw [header_values_eq_filter_map headers name]
  constructor
  · intro h hmem
    obtain ⟨⟨k, v⟩, hkv, hfst⟩ := List.mem_map.mp hmem
    have : (k, v) ∈ headers.filter (fun p => p.1 == name) := by
      simp [List.mem_filter, hkv]
      exact hfst
    rw [List.map_eq_nil_iff] at h
    rw [h] at this
    exact absurd this (List.not_mem_nil _)
  · intro h
    rw [List.map_eq_nil_iff, List.filter_eq_nil_iff]
    intro ⟨k, v⟩ hkv
    simp only [beq_iff_eq]
    intro hk
    exact h (List.mem_map.mpr ⟨(k, v), hkv, hk ▸ rfl⟩)

/-- Witness for C5: looking up a never-written header name yields the
empty sequence. -/
theorem c5_witness :
    ns_sphere_file_header_values_read [("Content-Type", "text/subtext")]
      "X-Missing" = [] :=
  (c5_header_values [("Content-Type", "text/subtext")] "X-Missing").2.mpr
    (by decide)

/-- C6: whenever the non-blocking variant of a read (content read or file
contents read) completes, its result is identical to the blocking
variant's result on the same arguments and state. -/
theorem c6_blocking_matches_async :
    (∀ (sphere : Sphere) (path : String) (fuel : Nat)
        (r : Except NsError SphereFile),
        ns_sphere_content_read_async sphere path fuel = some r →
        ns_sphere_content_read_blocking sphere path = r) ∧
    (∀ (file : SphereFile) (fuel : Nat) (r : List Nat),
        ns_sphere_file_contents_read_async file fuel = some r →
        ns_sphere_file_contents_read_blocking file = r) := by
  constructor
  · intro sphere path fuel r h
    cases fuel with
    | zero => exact absurd h (by simp [ns_sphere_content_read_async])
    | succ n =>
      simp only [ns_sphere_content_read_async, Option.some.injEq] at h
      exact h
  · intro file fuel r h
    cases fuel with
    | zero => exact absurd h (by simp [ns_sphere_file_contents_read_async])
    | succ n =>
      simp only [ns_sphere_file_contents_read_async, Option.some.injEq] at h
      exact h

/-- Witness for C6: the blocking read of a missing path equals what the
completed non-blocking read returned. -/
theorem c6_witness :
    ns_sphere_content_read_blocking ⟨"id", [], [], []⟩ "/missing" =
      .error ⟨.notFound, "content not found at path: /missing"⟩ :=
  c6_blocking_matches_async.1 ⟨"id", [], [], []⟩ "/missing" 1 _ rfl

/-- C7: saving twice in a row with no intervening writes produces no
observable change: the sphere state after the second save equals the state
after the first, so every subsequent read returns the same result. -/
theorem c7_save_idempotent (sphere : Sphere) :
    ns_sphere_save (ns_sphere_save sphere) = ns_sphere_save sphere ∧
    ∀ path,
      ns_sphere_content_read_blocking
          (ns_sphere_save (ns_sphere_save sphere)) path =
        ns_sphere_content_read_blocking (ns_sphere_save sphere) path := by
  have hsave :
      ns_sphere_save (ns_sphere_save sphere) = ns_sphere_save sphere := by
    by_cases h : sphere.pending = []
    · simp [ns_sphere_save, h]
    · have h1 : ns_sphere_save sphere =
          { sphere with
              committed :=
                sphere.pending ++
                  sphere.committed.filter
                    (fun e => sphere.pending.all (fun p => p.1 ≠ e.1))
              pending := []
              versions := sphere.committed :: sphere.versions } := by
        simp [ns_sphere_save, h]
      rw [h1]
      simp [ns_sphere_save]
  exact ⟨hsave, fun path => by rw [hsave]⟩

/-- C8: for all storage paths and every key name, initialize, then
createKey, then createSphere succeeds with a receipt whose identity is
non-empty, whose mnemonic is non-empty, and whose mnemonic differs from
the identity. -/
theorem c8_create_receipt (g e name : String) :
    ∃ ctx₁ r ctx₂,
      ns_key_create ( ns_initialize g e) name = .ok ctx₁ ∧
      ns_sphere_create ctx₁ name = .ok (r, ctx₂) ∧
      r.identity ≠ "" ∧ r.mnemonic ≠ "" ∧ r.mnemonic ≠ r.identity := by
  refine ⟨⟨g, e, [name], [], 0⟩, ⟨deriveIdentity 0, deriveMnemonic 0⟩,
    ⟨g, e, [name], [⟨deriveIdentity 0, [], [], []⟩], 1⟩, ?_, ?_, ?_, ?_, ?_⟩
  · simp [ns_key_create, ns_initialize]
  · simp [ns_sphere_create]
  · decide
  · decide
  · decide

/-- C9: writers to one handle are serialized (spec §5), so a concurrent
execution is one of the two serialized orders, covered here by quantifying
over both slugs: two writes to distinct slugs are both visible after a
single save, and two writes to the same slug leave exactly the
serialized-last write's content as the unique final pending value. -/
theorem c9_concurrent_writes (sphere : Sphere) (s₁ s₂ t₁ t₂ : String)
    (c₁ c₂ : List Nat) :
    (s₁ ≠ s₂ →
      ns_sphere_content_read_blocking
          (ns_sphere_save
            (ns_sphere_content_write
              (ns_sphere_content_write sphere s₁ t₁ c₁) s₂ t₂ c₂))
          ("/" ++ s₁) = .ok ⟨c₁, [("Content-Type", t₁)]⟩ ∧
      ns_sphere_content_read_blocking
          (ns_sphere_save
            (ns_sphere_content_write
              (ns_sphere_content_write sphere s₁ t₁ c₁) s₂ t₂ c₂))
          ("/" ++ s₂) = .ok ⟨c₂, [("Content-Type", t₂)]⟩) ∧
    (ns_sphere_content_write
        (ns_sphere_content_write sphere s₁ t₁ c₁) s₁ t₂ c₂).pending.filter
          (fun e => e.1 == s₁) = [(s₁, ⟨c₂, [("Content-Type", t₂)]⟩)] := by
  constructor
  · intro h
    constructor
    · have hfind :
          (sphereView
              (ns_sphere_save
                (ns_sphere_content_write
                  (ns_sphere_content_write sphere s₁ t₁ c₁) s₂ t₂ c₂))).find?
              (fun e => e.1 == s₁) =
            some (s₁, ⟨c₁, [("Content-Type", t₁)]⟩) := by
        simp [sphereView, ns_sphere_save, ns_sphere_content_write,
          List.find?_cons, Ne.symm h, h]
      unfold ns_sphere_content_read_blocking ns_sphere_content_read
      rw [normalizePath_slash_append, hfind]
    · have hfind :
          (sphereView
              (ns_sphere_save
                (ns_sphere_content_write
                  (ns_sphere_content_write sphere s₁ t₁ c₁) s₂ t₂ c₂))).find?
              (fun e => e.1 == s₂) =
            some (s₂, ⟨c₂, [("Content-Type", t₂)]⟩) := by
        simp [sphereView, ns_sphere_save, ns_sphere_content_write]
      unfold ns_sphere_content_read_blocking ns_sphere_content_read
      rw [normalizePath_slash_append, hfind]
  · simp only [ns_sphere_content_write]
    rw [List.filter_cons]
    simp [filter_ne_then_eq]

/-- Witness for C9: with distinct slugs "a" and "b", the first write is
visible after the save. -/
theorem c9_witness :
    ns_sphere_content_read_blocking
        (ns_sphere_save
          (ns_sphere_content_write
            (ns_sphere_content_write ⟨"id", [], [], []⟩ "a" "t1" [1]) "b"
            "t2" [2]))
        "/a" = .ok ⟨[1], [("Content-Type", "t1")]⟩ :=
  ((c9_concurrent_writes ⟨"id", [], [], []⟩ "a" "b" "t1" "t2" [1] [2]).1
    (by decide)).1

/-- C10: for a buffer whose bytes contain no NUL, `str_from_buffer`
returns NULL exactly when allocation fails, and on success returns the
buffer's bytes in order followed by a terminating NUL at index `len`. -/
theorem c10_str_from_buffer (buffer : List Nat) (allocOk : Bool)
    (h : 0 ∉ buffer) :
    (str_from_buffer buffer allocOk = none ↔ allocOk = false) ∧
    (allocOk = true →
      str_from_buffer buffer allocOk = some (buffer ++ [0])) := by
  constructor
  · cases allocOk <;> simp [str_from_buffer]
  · intro ha
    subst ha
    simp [str_from_buffer, strncpyRegion_eq_self buffer h]

/-- Witness for C10: the bytes of "Hel" contain no NUL and marshal to the
same bytes followed by a NUL terminator. -/
theorem c10_witness :
    (0 : Nat) ∉ [72, 101, 108] ∧
      str_from_buffer [72, 101, 108] true = some [72, 101, 108, 0] :=
  ⟨by decide, (c10_str_from_buffer [72, 101, 108] true (by decide)).2 rfl⟩

end Noosphere
